import Mathlib

/-! fastparse: the constants of the assembly fast paths.

A shallow embedding of `constants_amd64.h` and `constants_arm64.h`, the two
headers shared by the AMD64 and ARM64 assembly fast paths of the numeric
parser.  Each `#define` becomes a natural number of the same name; the AMD64
header writes character constants as C character literals, the ARM64 header as
decimal immediates (`$48`).
-/

namespace Fastparse

/-! ## constants_amd64.h -/

namespace AMD64

-- Character constants
def CHAR_ZERO : Nat := Char.toNat '0'
def CHAR_NINE : Nat := Char.toNat '9'
def CHAR_DOT : Nat := Char.toNat '.'
def CHAR_MINUS : Nat := Char.toNat '-'
def CHAR_PLUS : Nat := Char.toNat '+'
def CHAR_E_LOWER : Nat := Char.toNat 'e'
def CHAR_E_UPPER : Nat := Char.toNat 'E'
def CHAR_X_LOWER : Nat := Char.toNat 'x'
def CHAR_X_UPPER : Nat := Char.toNat 'X'
def CHAR_P_LOWER : Nat := Char.toNat 'p'
def CHAR_P_UPPER : Nat := Char.toNat 'P'
def CHAR_A_LOWER : Nat := Char.toNat 'a'
def CHAR_F_LOWER : Nat := Char.toNat 'f'
def CHAR_A_UPPER : Nat := Char.toNat 'A'
def CHAR_F_UPPER : Nat := Char.toNat 'F'

-- Numeric constants
def TEN : Nat := 10
def SIXTEEN : Nat := 16
def NINETEEN : Nat := 19
def MAX_EXP : Nat := 10000

-- Bit masks
def SIGN_BIT : Nat := 0x8000000000000000

-- Exponent bias for float64
def EXP_BIAS : Nat := 1023
def EXP_BITS : Nat := 11
def MANTISSA_BITS : Nat := 52
def IMPLICIT_BIT : Nat := 0x0010000000000000

-- SIMD constants for AVX2
def ZERO_VECTOR : Nat := 0x00
def DIGIT_LOWER : Nat := 0x30
def DIGIT_UPPER : Nat := 0x39

end AMD64

/-! ## constants_arm64.h -/

namespace ARM64

-- Character constants
def CHAR_0 : Nat := 48
def CHAR_9 : Nat := 57
def CHAR_DOT : Nat := 46
def CHAR_MINUS : Nat := 45
def CHAR_PLUS : Nat := 43
def CHAR_e : Nat := 101
def CHAR_E : Nat := 69
def CHAR_x : Nat := 120
def CHAR_X : Nat := 88
def CHAR_p : Nat := 112
def CHAR_P : Nat := 80
def CHAR_a : Nat := 97
def CHAR_f : Nat := 102
def CHAR_A : Nat := 65
def CHAR_F : Nat := 70

-- Numeric constants
def TEN : Nat := 10
def SIXTEEN : Nat := 16
def NINETEEN : Nat := 19
def MAX_EXP : Nat := 10000

-- Bit masks
def SIGN_BIT : Nat := 0x8000000000000000

-- Exponent bias for float64
def EXP_BIAS : Nat := 1023
def EXP_BITS : Nat := 11
def MANTISSA_BITS : Nat := 52
def IMPLICIT_BIT : Nat := 0x0010000000000000

end ARM64

/-! ## Arithmetic of the 64-bit accumulators

The headers hold no code, only the constants the assembly paths share.  The
few operations the constants are meant for are modelled below, each from the
words of the specification. -/

/-- Positional value of a digit sequence, most significant digit first, in exact
arithmetic. -/
def digitsValue (radix : Nat) (ds : List Nat) : Nat :=
  ds.foldl (fun acc d => acc * radix + d) 0

/-- Modelled from the spec: the primary integer accumulator of the scanners
(spec section 3, DigitRun), whose code is not among the two headers.  Each digit
updates a 64-bit unsigned register to `acc * radix + digit`, wrapping modulo
`2 ^ 64`. -/
def accumulate64 (radix : Nat) (ds : List Nat) : Nat :=
  ds.foldl (fun acc d => (acc * radix + d) % 2 ^ 64) 0

/-- Bitwise complement of a 64-bit unsigned word. -/
def not64 (x : Nat) : Nat :=
  2 ^ 64 - 1 - x % 2 ^ 64

/-- Modelled from the spec: the bit construction of the Float Assembler (spec
section 4.5), whose code is not among the two headers: the final pattern is the
sign moved to bit 63, OR the biased exponent shifted left by the mantissa
width, OR the significand with the implicit leading bit cleared. -/
def floatBits (s b g : Nat) : Nat :=
  ((s * AMD64.SIGN_BIT) ||| (b <<< AMD64.MANTISSA_BITS)) ||| (g &&& not64 AMD64.IMPLICIT_BIT)

/-! ## Agreement of the two headers -/

/-- C1: every constant of `constants_arm64.h` has the numeric value of its
counterpart in `constants_amd64.h`: the fifteen decimal character codes equal
the ASCII codes of the AMD64 character literals, and TEN, SIXTEEN, NINETEEN,
MAX_EXP, SIGN_BIT, EXP_BIAS, EXP_BITS, MANTISSA_BITS and IMPLICIT_BIT are equal
in both files. -/
theorem headers_agree :
    (ARM64.CHAR_0 = 48 ∧ ARM64.CHAR_0 = AMD64.CHAR_ZERO) ∧
    (ARM64.CHAR_9 = 57 ∧ ARM64.CHAR_9 = AMD64.CHAR_NINE) ∧
    (ARM64.CHAR_DOT = 46 ∧ ARM64.CHAR_DOT = AMD64.CHAR_DOT) ∧
    (ARM64.CHAR_MINUS = 45 ∧ ARM64.CHAR_MINUS = AMD64.CHAR_MINUS) ∧
    (ARM64.CHAR_PLUS = 43 ∧ ARM64.CHAR_PLUS = AMD64.CHAR_PLUS) ∧
    (ARM64.CHAR_e = 101 ∧ ARM64.CHAR_e = AMD64.CHAR_E_LOWER) ∧
    (ARM64.CHAR_E = 69 ∧ ARM64.CHAR_E = AMD64.CHAR_E_UPPER) ∧
    (ARM64.CHAR_x = 120 ∧ ARM64.CHAR_x = AMD64.CHAR_X_LOWER) ∧
    (ARM64.CHAR_X = 88 ∧ ARM64.CHAR_X = AMD64.CHAR_X_UPPER) ∧
    (ARM64.CHAR_p = 112 ∧ ARM64.CHAR_p = AMD64.CHAR_P_LOWER) ∧
    (ARM64.CHAR_P = 80 ∧ ARM64.CHAR_P = AMD64.CHAR_P_UPPER) ∧
    (ARM64.CHAR_a = 97 ∧ ARM64.CHAR_a = AMD64.CHAR_A_LOWER) ∧
    (ARM64.CHAR_f = 102 ∧ ARM64.CHAR_f = AMD64.CHAR_F_LOWER) ∧
    (ARM64.CHAR_A = 65 ∧ ARM64.CHAR_A = AMD64.CHAR_A_UPPER) ∧
    (ARM64.CHAR_F = 70 ∧ ARM64.CHAR_F = AMD64.CHAR_F_UPPER) ∧
    ARM64.TEN = AMD64.TEN ∧
    ARM64.SIXTEEN = AMD64.SIXTEEN ∧
    ARM64.NINETEEN = AMD64.NINETEEN ∧
    ARM64.MAX_EXP = AMD64.MAX_EXP ∧
    ARM64.SIGN_BIT = AMD64.SIGN_BIT ∧
    ARM64.EXP_BIAS = AMD64.EXP_BIAS ∧
    ARM64.EXP_BITS = AMD64.EXP_BITS ∧
    ARM64.MANTISSA_BITS = AMD64.MANTISSA_BITS ∧
    ARM64.IMPLICIT_BIT = AMD64.IMPLICIT_BIT := by
  decide

/-- C2: the float64 layout constants partition the 64-bit pattern, in both
headers: 1 + EXP_BITS + MANTISSA_BITS = 64, SIGN_BIT = 2^63 =
2^(EXP_BITS + MANTISSA_BITS), IMPLICIT_BIT = 2^MANTISSA_BITS = 2^52, and the
three field masks SIGN_BIT, (2^EXP_BITS - 1) * 2^MANTISSA_BITS and
IMPLICIT_BIT - 1 are pairwise disjoint while their OR is 2^64 - 1. -/
theorem layout_partition :
    (1 + AMD64.EXP_BITS + AMD64.MANTISSA_BITS = 64 ∧
      AMD64.SIGN_BIT = 2 ^ 63 ∧
      AMD64.SIGN_BIT = 2 ^ (AMD64.EXP_BITS + AMD64.MANTISSA_BITS) ∧
      AMD64.IMPLICIT_BIT = 2 ^ AMD64.MANTISSA_BITS ∧
      AMD64.IMPLICIT_BIT = 2 ^ 52 ∧
      AMD64.SIGN_BIT &&& ((2 ^ AMD64.EXP_BITS - 1) * 2 ^ AMD64.MANTISSA_BITS) = 0 ∧
      AMD64.SIGN_BIT &&& (AMD64.IMPLICIT_BIT - 1) = 0 ∧
      ((2 ^ AMD64.EXP_BITS - 1) * 2 ^ AMD64.MANTISSA_BITS) &&& (AMD64.IMPLICIT_BIT - 1) = 0 ∧
      (AMD64.SIGN_BIT ||| ((2 ^ AMD64.EXP_BITS - 1) * 2 ^ AMD64.MANTISSA_BITS))
        ||| (AMD64.IMPLICIT_BIT - 1) = 2 ^ 64 - 1) ∧
    (1 + ARM64.EXP_BITS + ARM64.MANTISSA_BITS = 64 ∧
      ARM64.SIGN_BIT = 2 ^ 63 ∧
      ARM64.SIGN_BIT = 2 ^ (ARM64.EXP_BITS + ARM64.MANTISSA_BITS) ∧
      ARM64.IMPLICIT_BIT = 2 ^ ARM64.MANTISSA_BITS ∧
      ARM64.IMPLICIT_BIT = 2 ^ 52 ∧
      ARM64.SIGN_BIT &&& ((2 ^ ARM64.EXP_BITS - 1) * 2 ^ ARM64.MANTISSA_BITS) = 0 ∧
      ARM64.SIGN_BIT &&& (ARM64.IMPLICIT_BIT - 1) = 0 ∧
      ((2 ^ ARM64.EXP_BITS - 1) * 2 ^ ARM64.MANTISSA_BITS) &&& (ARM64.IMPLICIT_BIT - 1) = 0 ∧
      (ARM64.SIGN_BIT ||| ((2 ^ ARM64.EXP_BITS - 1) * 2 ^ ARM64.MANTISSA_BITS))
        ||| (ARM64.IMPLICIT_BIT - 1) = 2 ^ 64 - 1) := by
  decide

/-! ## Digit classification -/

/-- C7: the vectorized digit-range bounds classify exactly the bytes the scalar
bounds do: DIGIT_LOWER = CHAR_ZERO = 0x30 and DIGIT_UPPER = CHAR_NINE = 0x39;
for every byte b, DIGIT_LOWER <= b <= DIGIT_UPPER iff CHAR_ZERO <= b <=
CHAR_NINE, and then the digit value b - CHAR_ZERO is below TEN; exactly TEN of
the 256 byte values are accepted. -/
theorem digit_bounds_agree :
    (AMD64.DIGIT_LOWER = AMD64.CHAR_ZERO ∧ AMD64.CHAR_ZERO = 0x30) ∧
    (AMD64.DIGIT_UPPER = AMD64.CHAR_NINE ∧ AMD64.CHAR_NINE = 0x39) ∧
    (∀ b : Nat, b < 256 →
      ((AMD64.DIGIT_LOWER ≤ b ∧ b ≤ AMD64.DIGIT_UPPER) ↔
        (AMD64.CHAR_ZERO ≤ b ∧ b ≤ AMD64.CHAR_NINE)) ∧
      ((AMD64.DIGIT_LOWER ≤ b ∧ b ≤ AMD64.DIGIT_UPPER) → b - AMD64.CHAR_ZERO < AMD64.TEN)) ∧
    ((List.range 256).filter
      (fun b => decide (AMD64.DIGIT_LOWER ≤ b ∧ b ≤ AMD64.DIGIT_UPPER))).length = AMD64.TEN := by
  refine ⟨by decide, by decide, ?_, by decide⟩
  intro b _
  have h0 : AMD64.CHAR_ZERO = 48 := rfl
  have h9 : AMD64.CHAR_NINE = 57 := rfl
  simp only [AMD64.DIGIT_LOWER, AMD64.DIGIT_UPPER, AMD64.TEN]
  refine ⟨by omega, fun h => by omega⟩

/-- Witness of C7 at the byte '7' (0x37): both bounds accept it and its digit
value is below TEN. -/
theorem digit_bounds_agree_witness :
    ((AMD64.DIGIT_LOWER ≤ 0x37 ∧ 0x37 ≤ AMD64.DIGIT_UPPER) ↔
        (AMD64.CHAR_ZERO ≤ 0x37 ∧ 0x37 ≤ AMD64.CHAR_NINE)) ∧
      ((AMD64.DIGIT_LOWER ≤ 0x37 ∧ 0x37 ≤ AMD64.DIGIT_UPPER) → 0x37 - AMD64.CHAR_ZERO < AMD64.TEN) :=
  digit_bounds_agree.2.2.1 0x37 (by decide)

/-- C8: the hexadecimal digit classes of the character constants yield the digit
values 0..15, in both headers: the three byte ranges are pairwise disjoint;
b - CHAR_ZERO, b - CHAR_A_LOWER + TEN and b - CHAR_A_UPPER + TEN are below
SIXTEEN on their ranges (below TEN on the decimal range); every value below
SIXTEEN is the image of some byte, every value below TEN of a decimal digit
byte; each value 10..15 has both a lower-case letter byte and an upper-case
letter byte, and the two differ by exactly 0x20; any lower-case and upper-case
letter of equal value differ by 0x20. -/
theorem hex_digit_classes :
    (∀ b : Nat,
        ¬ ((AMD64.CHAR_ZERO ≤ b ∧ b ≤ AMD64.CHAR_NINE) ∧ (AMD64.CHAR_A_LOWER ≤ b ∧ b ≤ AMD64.CHAR_F_LOWER)) ∧
        ¬ ((AMD64.CHAR_ZERO ≤ b ∧ b ≤ AMD64.CHAR_NINE) ∧ (AMD64.CHAR_A_UPPER ≤ b ∧ b ≤ AMD64.CHAR_F_UPPER)) ∧
        ¬ ((AMD64.CHAR_A_LOWER ≤ b ∧ b ≤ AMD64.CHAR_F_LOWER) ∧ (AMD64.CHAR_A_UPPER ≤ b ∧ b ≤ AMD64.CHAR_F_UPPER)) ∧
        (AMD64.CHAR_ZERO ≤ b ∧ b ≤ AMD64.CHAR_NINE → b - AMD64.CHAR_ZERO < AMD64.SIXTEEN) ∧
        (AMD64.CHAR_A_LOWER ≤ b ∧ b ≤ AMD64.CHAR_F_LOWER → b - AMD64.CHAR_A_LOWER + AMD64.TEN < AMD64.SIXTEEN) ∧
        (AMD64.CHAR_A_UPPER ≤ b ∧ b ≤ AMD64.CHAR_F_UPPER → b - AMD64.CHAR_A_UPPER + AMD64.TEN < AMD64.SIXTEEN) ∧
        (AMD64.CHAR_ZERO ≤ b ∧ b ≤ AMD64.CHAR_NINE → b - AMD64.CHAR_ZERO < AMD64.TEN)) ∧
    (∀ v : Nat, v < AMD64.SIXTEEN → ∃ b : Nat, b < 256 ∧
        ((AMD64.CHAR_ZERO ≤ b ∧ b ≤ AMD64.CHAR_NINE ∧ b - AMD64.CHAR_ZERO = v) ∨
          (AMD64.CHAR_A_LOWER ≤ b ∧ b ≤ AMD64.CHAR_F_LOWER ∧ b - AMD64.CHAR_A_LOWER + AMD64.TEN = v) ∨
          (AMD64.CHAR_A_UPPER ≤ b ∧ b ≤ AMD64.CHAR_F_UPPER ∧ b - AMD64.CHAR_A_UPPER + AMD64.TEN = v))) ∧
    (∀ v : Nat, v < AMD64.TEN → ∃ b : Nat, b < 256 ∧
        AMD64.CHAR_ZERO ≤ b ∧ b ≤ AMD64.CHAR_NINE ∧ b - AMD64.CHAR_ZERO = v) ∧
    (∀ v : Nat, AMD64.TEN ≤ v → v < AMD64.SIXTEEN → ∃ l u : Nat, l < 256 ∧ u < 256 ∧
        (AMD64.CHAR_A_LOWER ≤ l ∧ l ≤ AMD64.CHAR_F_LOWER ∧ l - AMD64.CHAR_A_LOWER + AMD64.TEN = v) ∧
        (AMD64.CHAR_A_UPPER ≤ u ∧ u ≤ AMD64.CHAR_F_UPPER ∧ u - AMD64.CHAR_A_UPPER + AMD64.TEN = v) ∧
        l = u + 0x20) ∧
    (∀ l u : Nat, AMD64.CHAR_A_LOWER ≤ l ∧ l ≤ AMD64.CHAR_F_LOWER → AMD64.CHAR_A_UPPER ≤ u ∧ u ≤ AMD64.CHAR_F_UPPER →
        l - AMD64.CHAR_A_LOWER + AMD64.TEN = u - AMD64.CHAR_A_UPPER + AMD64.TEN →
        l = u + 0x20 ∧ AMD64.TEN ≤ l - AMD64.CHAR_A_LOWER + AMD64.TEN ∧ l - AMD64.CHAR_A_LOWER + AMD64.TEN ≤ 15) ∧
    (∀ b : Nat,
        ¬ ((ARM64.CHAR_0 ≤ b ∧ b ≤ ARM64.CHAR_9) ∧ (ARM64.CHAR_a ≤ b ∧ b ≤ ARM64.CHAR_f)) ∧
        ¬ ((ARM64.CHAR_0 ≤ b ∧ b ≤ ARM64.CHAR_9) ∧ (ARM64.CHAR_A ≤ b ∧ b ≤ ARM64.CHAR_F)) ∧
        ¬ ((ARM64.CHAR_a ≤ b ∧ b ≤ ARM64.CHAR_f) ∧ (ARM64.CHAR_A ≤ b ∧ b ≤ ARM64.CHAR_F)) ∧
        (ARM64.CHAR_0 ≤ b ∧ b ≤ ARM64.CHAR_9 → b - ARM64.CHAR_0 < ARM64.SIXTEEN) ∧
        (ARM64.CHAR_a ≤ b ∧ b ≤ ARM64.CHAR_f → b - ARM64.CHAR_a + ARM64.TEN < ARM64.SIXTEEN) ∧
        (ARM64.CHAR_A ≤ b ∧ b ≤ ARM64.CHAR_F → b - ARM64.CHAR_A + ARM64.TEN < ARM64.SIXTEEN) ∧
        (ARM64.CHAR_0 ≤ b ∧ b ≤ ARM64.CHAR_9 → b - ARM64.CHAR_0 < ARM64.TEN)) ∧
    (∀ v : Nat, v < ARM64.SIXTEEN → ∃ b : Nat, b < 256 ∧
        ((ARM64.CHAR_0 ≤ b ∧ b ≤ ARM64.CHAR_9 ∧ b - ARM64.CHAR_0 = v) ∨
          (ARM64.CHAR_a ≤ b ∧ b ≤ ARM64.CHAR_f ∧ b - ARM64.CHAR_a + ARM64.TEN = v) ∨
          (ARM64.CHAR_A ≤ b ∧ b ≤ ARM64.CHAR_F ∧ b - ARM64.CHAR_A + ARM64.TEN = v))) ∧
    (∀ v : Nat, v < ARM64.TEN → ∃ b : Nat, b < 256 ∧
        ARM64.CHAR_0 ≤ b ∧ b ≤ ARM64.CHAR_9 ∧ b - ARM64.CHAR_0 = v) ∧
    (∀ v : Nat, ARM64.TEN ≤ v → v < ARM64.SIXTEEN → ∃ l u : Nat, l < 256 ∧ u < 256 ∧
        (ARM64.CHAR_a ≤ l ∧ l ≤ ARM64.CHAR_f ∧ l - ARM64.CHAR_a + ARM64.TEN = v) ∧
        (ARM64.CHAR_A ≤ u ∧ u ≤ ARM64.CHAR_F ∧ u - ARM64.CHAR_A + ARM64.TEN = v) ∧
        l = u + 0x20) ∧
    (∀ l u : Nat, ARM64.CHAR_a ≤ l ∧ l ≤ ARM64.CHAR_f → ARM64.CHAR_A ≤ u ∧ u ≤ ARM64.CHAR_F →
        l - ARM64.CHAR_a + ARM64.TEN = u - ARM64.CHAR_A + ARM64.TEN →
        l = u + 0x20 ∧ ARM64.TEN ≤ l - ARM64.CHAR_a + ARM64.TEN ∧ l - ARM64.CHAR_a + ARM64.TEN ≤ 15) := by
  simp only [show AMD64.CHAR_ZERO = 48 from rfl, show AMD64.CHAR_NINE = 57 from rfl,
    show AMD64.CHAR_A_LOWER = 97 from rfl, show AMD64.CHAR_F_LOWER = 102 from rfl,
    show AMD64.CHAR_A_UPPER = 65 from rfl, show AMD64.CHAR_F_UPPER = 70 from rfl,
    AMD64.TEN, AMD64.SIXTEEN, ARM64.CHAR_0, ARM64.CHAR_9, ARM64.CHAR_a, ARM64.CHAR_f,
    ARM64.CHAR_A, ARM64.CHAR_F, ARM64.TEN, ARM64.SIXTEEN]
  have ranges : ∀ b : Nat,
      ¬ ((48 ≤ b ∧ b ≤ 57) ∧ (97 ≤ b ∧ b ≤ 102)) ∧
      ¬ ((48 ≤ b ∧ b ≤ 57) ∧ (65 ≤ b ∧ b ≤ 70)) ∧
      ¬ ((97 ≤ b ∧ b ≤ 102) ∧ (65 ≤ b ∧ b ≤ 70)) ∧
      (48 ≤ b ∧ b ≤ 57 → b - 48 < 16) ∧
      (97 ≤ b ∧ b ≤ 102 → b - 97 + 10 < 16) ∧
      (65 ≤ b ∧ b ≤ 70 → b - 65 + 10 < 16) ∧
      (48 ≤ b ∧ b ≤ 57 → b - 48 < 10) :=
    fun b => ⟨by omega, by omega, by omega, fun h => by omega, fun h => by omega,
      fun h => by omega, fun h => by omega⟩
  have onto : ∀ v : Nat, v < 16 → ∃ b : Nat, b < 256 ∧
      ((48 ≤ b ∧ b ≤ 57 ∧ b - 48 = v) ∨ (97 ≤ b ∧ b ≤ 102 ∧ b - 97 + 10 = v) ∨
        (65 ≤ b ∧ b ≤ 70 ∧ b - 65 + 10 = v)) := by
    intro v hv
    by_cases h : v < 10
    · exact ⟨48 + v, by omega, Or.inl (by omega)⟩
    · exact ⟨97 + (v - 10), by omega, Or.inr (Or.inl (by omega))⟩
  have decimal : ∀ v : Nat, v < 10 → ∃ b : Nat, b < 256 ∧ 48 ≤ b ∧ b ≤ 57 ∧ b - 48 = v :=
    fun v hv => ⟨48 + v, by omega, by omega, by omega, by omega⟩
  have letters : ∀ v : Nat, 10 ≤ v → v < 16 → ∃ l u : Nat, l < 256 ∧ u < 256 ∧
      (97 ≤ l ∧ l ≤ 102 ∧ l - 97 + 10 = v) ∧ (65 ≤ u ∧ u ≤ 70 ∧ u - 65 + 10 = v) ∧
      l = u + 32 :=
    fun v h1 h2 => ⟨97 + (v - 10), 65 + (v - 10), by omega, by omega,
      ⟨by omega, by omega, by omega⟩, ⟨by omega, by omega, by omega⟩, by omega⟩
  have pairs : ∀ l u : Nat, 97 ≤ l ∧ l ≤ 102 → 65 ≤ u ∧ u ≤ 70 →
      l - 97 + 10 = u - 65 + 10 → l = u + 32 ∧ 10 ≤ l - 97 + 10 ∧ l - 97 + 10 ≤ 15 :=
    fun l u hl hu h => by omega
  exact ⟨ranges, onto, decimal, letters, pairs, ranges, onto, decimal, letters, pairs⟩

/-- Witness of C8 at the value 12: a lower-case and an upper-case letter byte map
to it and differ by 0x20. -/
theorem hex_digit_classes_witness :
    ∃ l u : Nat, l < 256 ∧ u < 256 ∧
        (AMD64.CHAR_A_LOWER ≤ l ∧ l ≤ AMD64.CHAR_F_LOWER ∧
          l - AMD64.CHAR_A_LOWER + AMD64.TEN = 12) ∧
        (AMD64.CHAR_A_UPPER ≤ u ∧ u ≤ AMD64.CHAR_F_UPPER ∧
          u - AMD64.CHAR_A_UPPER + AMD64.TEN = 12) ∧
        l = u + 0x20 :=
  hex_digit_classes.2.2.2.1 12 (by decide) (by decide)

/-- C10: the grammar marker bytes are distinguishable from digits, in both
headers: none of CHAR_DOT, CHAR_MINUS, CHAR_PLUS, CHAR_X_LOWER, CHAR_X_UPPER,
CHAR_P_LOWER, CHAR_P_UPPER lies in the decimal range or in either hex letter
range; the fifteen character constants are pairwise distinct; CHAR_E_LOWER and
CHAR_E_UPPER lie outside the decimal range but inside the hex letter ranges,
with digit value 14. -/
theorem markers_distinct_from_digits :
    (∀ c ∈ [AMD64.CHAR_DOT, AMD64.CHAR_MINUS, AMD64.CHAR_PLUS, AMD64.CHAR_X_LOWER,
          AMD64.CHAR_X_UPPER, AMD64.CHAR_P_LOWER, AMD64.CHAR_P_UPPER],
        ¬ (AMD64.CHAR_ZERO ≤ c ∧ c ≤ AMD64.CHAR_NINE) ∧
        ¬ (AMD64.CHAR_A_LOWER ≤ c ∧ c ≤ AMD64.CHAR_F_LOWER) ∧
        ¬ (AMD64.CHAR_A_UPPER ≤ c ∧ c ≤ AMD64.CHAR_F_UPPER)) ∧
    [AMD64.CHAR_ZERO, AMD64.CHAR_NINE, AMD64.CHAR_DOT, AMD64.CHAR_MINUS, AMD64.CHAR_PLUS,
      AMD64.CHAR_E_LOWER, AMD64.CHAR_E_UPPER, AMD64.CHAR_X_LOWER, AMD64.CHAR_X_UPPER,
      AMD64.CHAR_P_LOWER, AMD64.CHAR_P_UPPER, AMD64.CHAR_A_LOWER, AMD64.CHAR_F_LOWER,
      AMD64.CHAR_A_UPPER, AMD64.CHAR_F_UPPER].Pairwise (fun x y => x ≠ y) ∧
    (¬ (AMD64.CHAR_ZERO ≤ AMD64.CHAR_E_LOWER ∧ AMD64.CHAR_E_LOWER ≤ AMD64.CHAR_NINE) ∧
      (AMD64.CHAR_A_LOWER ≤ AMD64.CHAR_E_LOWER ∧ AMD64.CHAR_E_LOWER ≤ AMD64.CHAR_F_LOWER) ∧
      AMD64.CHAR_E_LOWER - AMD64.CHAR_A_LOWER + AMD64.TEN = 14) ∧
    (¬ (AMD64.CHAR_ZERO ≤ AMD64.CHAR_E_UPPER ∧ AMD64.CHAR_E_UPPER ≤ AMD64.CHAR_NINE) ∧
      (AMD64.CHAR_A_UPPER ≤ AMD64.CHAR_E_UPPER ∧ AMD64.CHAR_E_UPPER ≤ AMD64.CHAR_F_UPPER) ∧
      AMD64.CHAR_E_UPPER - AMD64.CHAR_A_UPPER + AMD64.TEN = 14) ∧
    (∀ c ∈ [ARM64.CHAR_DOT, ARM64.CHAR_MINUS, ARM64.CHAR_PLUS, ARM64.CHAR_x, ARM64.CHAR_X,
          ARM64.CHAR_p, ARM64.CHAR_P],
        ¬ (ARM64.CHAR_0 ≤ c ∧ c ≤ ARM64.CHAR_9) ∧
        ¬ (ARM64.CHAR_a ≤ c ∧ c ≤ ARM64.CHAR_f) ∧
        ¬ (ARM64.CHAR_A ≤ c ∧ c ≤ ARM64.CHAR_F)) ∧
    [ARM64.CHAR_0, ARM64.CHAR_9, ARM64.CHAR_DOT, ARM64.CHAR_MINUS, ARM64.CHAR_PLUS,
      ARM64.CHAR_e, ARM64.CHAR_E, ARM64.CHAR_x, ARM64.CHAR_X, ARM64.CHAR_p, ARM64.CHAR_P,
      ARM64.CHAR_a, ARM64.CHAR_f, ARM64.CHAR_A, ARM64.CHAR_F].Pairwise (fun x y => x ≠ y) ∧
    (¬ (ARM64.CHAR_0 ≤ ARM64.CHAR_e ∧ ARM64.CHAR_e ≤ ARM64.CHAR_9) ∧
      (ARM64.CHAR_a ≤ ARM64.CHAR_e ∧ ARM64.CHAR_e ≤ ARM64.CHAR_f) ∧
      ARM64.CHAR_e - ARM64.CHAR_a + ARM64.TEN = 14) ∧
    (¬ (ARM64.CHAR_0 ≤ ARM64.CHAR_E ∧ ARM64.CHAR_E ≤ ARM64.CHAR_9) ∧
      (ARM64.CHAR_A ≤ ARM64.CHAR_E ∧ ARM64.CHAR_E ≤ ARM64.CHAR_F) ∧
      ARM64.CHAR_E - ARM64.CHAR_A + ARM64.TEN = 14) := by
  decide

/-! ## Exponent bias -/

/-- C9: EXP_BIAS is the IEEE-754 bias of an EXP_BITS-wide field, EXP_BIAS =
2^(EXP_BITS - 1) - 1 = 1023, in both headers, and for every integer e: the
biased value e + EXP_BIAS lies in 1 .. 2^EXP_BITS - 2 iff -1022 <= e <= 1023; it
is <= 0 iff e <= -1023; it is >= 2^EXP_BITS - 1 iff e >= 1024. -/
theorem exp_bias_ranges :
    (AMD64.EXP_BIAS = 2 ^ (AMD64.EXP_BITS - 1) - 1 ∧ AMD64.EXP_BIAS = 1023) ∧
    (∀ e : Int,
      ((1 ≤ e + (AMD64.EXP_BIAS : Int) ∧
          e + (AMD64.EXP_BIAS : Int) ≤ (2 : Int) ^ AMD64.EXP_BITS - 2) ↔
        (-1022 ≤ e ∧ e ≤ 1023)) ∧
      (e + (AMD64.EXP_BIAS : Int) ≤ 0 ↔ e ≤ -1023) ∧
      (e + (AMD64.EXP_BIAS : Int) ≥ (2 : Int) ^ AMD64.EXP_BITS - 1 ↔ e ≥ 1024)) ∧
    (ARM64.EXP_BIAS = 2 ^ (ARM64.EXP_BITS - 1) - 1 ∧ ARM64.EXP_BIAS = 1023) ∧
    (∀ e : Int,
      ((1 ≤ e + (ARM64.EXP_BIAS : Int) ∧
          e + (ARM64.EXP_BIAS : Int) ≤ (2 : Int) ^ ARM64.EXP_BITS - 2) ↔
        (-1022 ≤ e ∧ e ≤ 1023)) ∧
      (e + (ARM64.EXP_BIAS : Int) ≤ 0 ↔ e ≤ -1023) ∧
      (e + (ARM64.EXP_BIAS : Int) ≥ (2 : Int) ^ ARM64.EXP_BITS - 1 ↔ e ≥ 1024)) := by
  refine ⟨by decide, fun e => ?_, by decide, fun e => ?_⟩
  · simp only [AMD64.EXP_BIAS, AMD64.EXP_BITS]
    norm_num
    refine ⟨by omega, by omega, by omega⟩
  · simp only [ARM64.EXP_BIAS, ARM64.EXP_BITS]
    norm_num
    refine ⟨by omega, by omega, by omega⟩

/-! ## Capacity of the 64-bit accumulator -/

/-- Folding digits below the radix into an accumulator below `radix ^ k` stays
below `radix ^ (k + length)`. -/
theorem foldl_exact_lt (radix : Nat) (ds : List Nat) (hd : ∀ d ∈ ds, d < radix) :
    ∀ acc k : Nat, acc < radix ^ k →
      ds.foldl (fun acc d => acc * radix + d) acc < radix ^ (k + ds.length) := by
  induction ds with
  | nil => intro acc k h; simpa using h
  | cons d ds ih =>
    intro acc k h
    have hdr : d < radix := hd d (List.mem_cons_self d ds)
    have hstep : acc * radix + d < radix ^ (k + 1) := by
      have h1 : (acc + 1) * radix ≤ radix ^ k * radix := Nat.mul_le_mul_right radix h
      rw [pow_succ]
      rw [Nat.add_mul, Nat.one_mul] at h1
      omega
    have := ih (fun x hx => hd x (List.mem_cons_of_mem d hx)) (acc * radix + d) (k + 1) hstep
    rw [List.foldl_cons, List.length_cons]
    rwa [show k + (ds.length + 1) = k + 1 + ds.length by omega]

/-- Folding any digits into an accumulator multiplies it at least by
`radix ^ length`. -/
theorem foldl_exact_ge (radix : Nat) (ds : List Nat) :
    ∀ acc : Nat, acc * radix ^ ds.length ≤ ds.foldl (fun acc d => acc * radix + d) acc := by
  induction ds with
  | nil => intro acc; simp
  | cons d ds ih =>
    intro acc
    rw [List.foldl_cons, List.length_cons]
    calc acc * radix ^ (ds.length + 1)
        = acc * radix * radix ^ ds.length := by rw [pow_succ, Nat.mul_assoc, Nat.mul_comm _ radix]
      _ ≤ (acc * radix + d) * radix ^ ds.length :=
          Nat.mul_le_mul_right _ (Nat.le_add_right _ _)
      _ ≤ _ := ih (acc * radix + d)

/-- While `radix ^ n` fits in 64 bits, the wrapping accumulator agrees with the
exact one on at most `n` digits below the radix. -/
theorem foldl_wrap_eq_exact (radix n : Nat) (hn : radix ^ n ≤ 2 ^ 64) (ds : List Nat)
    (hd : ∀ d ∈ ds, d < radix) :
    ∀ acc k : Nat, acc < radix ^ k → k + ds.length ≤ n →
      ds.foldl (fun acc d => (acc * radix + d) % 2 ^ 64) acc =
        ds.foldl (fun acc d => acc * radix + d) acc := by
  induction ds with
  | nil => intro acc k _ _; rfl
  | cons d ds ih =>
    intro acc k h hk
    have hdr : d < radix := hd d (List.mem_cons_self d ds)
    have hr : 0 < radix := by omega
    rw [List.length_cons] at hk
    have hstep : acc * radix + d < radix ^ (k + 1) := by
      have := foldl_exact_lt radix [d] (by simpa using hdr) acc k h
      simpa using this
    have hfit : acc * radix + d < 2 ^ 64 :=
      lt_of_lt_of_le hstep (le_trans (Nat.pow_le_pow_right hr (by omega)) hn)
    rw [List.foldl_cons, List.foldl_cons, Nat.mod_eq_of_lt hfit]
    exact ih (fun x hx => hd x (List.mem_cons_of_mem d hx)) (acc * radix + d) (k + 1) hstep
      (by omega)

/-- C3: NINETEEN is the maximum number of decimal digits that fits losslessly in
a 64-bit unsigned accumulator, in both headers: every n < TEN^NINETEEN is below
2^64, so accumulating at most NINETEEN digits with multiplier TEN modulo 2^64
gives the exact value; the 20-digit number TEN^(NINETEEN+1) - 1 (twenty nines) is
>= 2^64 and its wrapped accumulation differs from its value. -/
theorem nineteen_digits_lossless :
    (∀ n : Nat, n < AMD64.TEN ^ AMD64.NINETEEN → n < 2 ^ 64) ∧
    (∀ ds : List Nat, ds.length ≤ AMD64.NINETEEN → (∀ d ∈ ds, d < AMD64.TEN) →
      digitsValue AMD64.TEN ds < AMD64.TEN ^ AMD64.NINETEEN ∧
      accumulate64 AMD64.TEN ds = digitsValue AMD64.TEN ds) ∧
    2 ^ 64 ≤ AMD64.TEN ^ (AMD64.NINETEEN + 1) - 1 ∧
    digitsValue AMD64.TEN (List.replicate (AMD64.NINETEEN + 1) 9) =
      AMD64.TEN ^ (AMD64.NINETEEN + 1) - 1 ∧
    accumulate64 AMD64.TEN (List.replicate (AMD64.NINETEEN + 1) 9) ≠
      digitsValue AMD64.TEN (List.replicate (AMD64.NINETEEN + 1) 9) ∧
    (∀ n : Nat, n < ARM64.TEN ^ ARM64.NINETEEN → n < 2 ^ 64) ∧
    (∀ ds : List Nat, ds.length ≤ ARM64.NINETEEN → (∀ d ∈ ds, d < ARM64.TEN) →
      digitsValue ARM64.TEN ds < ARM64.TEN ^ ARM64.NINETEEN ∧
      accumulate64 ARM64.TEN ds = digitsValue ARM64.TEN ds) ∧
    2 ^ 64 ≤ ARM64.TEN ^ (ARM64.NINETEEN + 1) - 1 := by
  have key : ∀ ds : List Nat, ds.length ≤ 19 → (∀ d ∈ ds, d < 10) →
      digitsValue 10 ds < 10 ^ 19 ∧ accumulate64 10 ds = digitsValue 10 ds := by
    intro ds hl hd
    constructor
    · have h := foldl_exact_lt 10 ds hd 0 0 (by norm_num)
      rw [Nat.zero_add] at h
      exact lt_of_lt_of_le h (Nat.pow_le_pow_right (by norm_num) hl)
    · exact foldl_wrap_eq_exact 10 19 (by norm_num) ds hd 0 0 (by norm_num) (by omega)
  refine ⟨?_, key, by decide, by decide, by decide, ?_, key, by decide⟩
  · intro n h
    simp only [AMD64.TEN, AMD64.NINETEEN] at h
    omega
  · intro n h
    simp only [ARM64.TEN, ARM64.NINETEEN] at h
    omega

/-- Witness of C3 at the digits of 18446744073709551 and at the largest 19-digit
number. -/
theorem nineteen_digits_lossless_witness :
    9999999999999999999 < 2 ^ 64 ∧
    accumulate64 AMD64.TEN [1, 8, 4, 4, 6, 7, 4, 4, 0, 7, 3, 7, 0, 9, 5, 5, 1] =
      18446744073709551 :=
  ⟨nineteen_digits_lossless.1 9999999999999999999 (by decide),
    ((nineteen_digits_lossless.2.1 [1, 8, 4, 4, 6, 7, 4, 4, 0, 7, 3, 7, 0, 9, 5, 5, 1]
      (by decide) (by decide)).2).trans (by decide)⟩

/-- C4: SIXTEEN hexadecimal digits exactly fill 64 bits, in both headers:
SIXTEEN^SIXTEEN = 2^64 and 4 * SIXTEEN = 64; every value formed from at most
SIXTEEN digit values below SIXTEEN is below 2^64; the largest such value,
sixteen digits 15, is exactly 2^64 - 1; a 17-digit value with a non-zero leading
digit is >= 2^64. -/
theorem sixteen_hex_digits_fill :
    (AMD64.SIXTEEN ^ AMD64.SIXTEEN = 2 ^ 64 ∧ 4 * AMD64.SIXTEEN = 64) ∧
    (∀ ds : List Nat, ds.length ≤ AMD64.SIXTEEN → (∀ d ∈ ds, d < AMD64.SIXTEEN) →
      digitsValue AMD64.SIXTEEN ds < 2 ^ 64) ∧
    digitsValue AMD64.SIXTEEN (List.replicate AMD64.SIXTEEN (AMD64.SIXTEEN - 1)) = 2 ^ 64 - 1 ∧
    (∀ (d : Nat) (ds : List Nat), 0 < d → ds.length = AMD64.SIXTEEN →
      2 ^ 64 ≤ digitsValue AMD64.SIXTEEN (d :: ds)) ∧
    (ARM64.SIXTEEN ^ ARM64.SIXTEEN = 2 ^ 64 ∧ 4 * ARM64.SIXTEEN = 64) ∧
    (∀ ds : List Nat, ds.length ≤ ARM64.SIXTEEN → (∀ d ∈ ds, d < ARM64.SIXTEEN) →
      digitsValue ARM64.SIXTEEN ds < 2 ^ 64) ∧
    digitsValue ARM64.SIXTEEN (List.replicate ARM64.SIXTEEN (ARM64.SIXTEEN - 1)) = 2 ^ 64 - 1 ∧
    (∀ (d : Nat) (ds : List Nat), 0 < d → ds.length = ARM64.SIXTEEN →
      2 ^ 64 ≤ digitsValue ARM64.SIXTEEN (d :: ds)) := by
  have upper : ∀ ds : List Nat, ds.length ≤ 16 → (∀ d ∈ ds, d < 16) →
      digitsValue 16 ds < 2 ^ 64 := by
    intro ds hl hd
    have h := foldl_exact_lt 16 ds hd 0 0 (by norm_num)
    rw [Nat.zero_add] at h
    calc digitsValue 16 ds < 16 ^ ds.length := h
      _ ≤ 16 ^ 16 := Nat.pow_le_pow_right (by norm_num) hl
      _ = 2 ^ 64 := by norm_num
  have lower : ∀ (d : Nat) (ds : List Nat), 0 < d → ds.length = 16 →
      2 ^ 64 ≤ digitsValue 16 (d :: ds) := by
    intro d ds hd hl
    have h := foldl_exact_ge 16 ds (0 * 16 + d)
    rw [hl] at h
    have h16 : (16 : Nat) ^ 16 = 2 ^ 64 := by norm_num
    calc 2 ^ 64 = 1 * 16 ^ 16 := by rw [h16, Nat.one_mul]
      _ ≤ (0 * 16 + d) * 16 ^ 16 := Nat.mul_le_mul_right _ (by omega)
      _ ≤ digitsValue 16 (d :: ds) := h
  exact ⟨by decide, upper, by decide, lower, by decide, upper, by decide, lower⟩

/-- Witness of C4 at the digits of 0xFFFFFFFFFFFFFFFF and of 0x10000000000000000. -/
theorem sixteen_hex_digits_fill_witness :
    digitsValue AMD64.SIXTEEN [15, 15, 15, 15, 15, 15, 15, 15, 15, 15, 15, 15, 15, 15, 15, 15]
      < 2 ^ 64 ∧
    2 ^ 64 ≤ digitsValue AMD64.SIXTEEN [1, 0, 0, 0, 0, 0, 0, 0, 0, 0, 0, 0, 0, 0, 0, 0, 0] :=
  ⟨sixteen_hex_digits_fill.2.1 _ (by decide) (by decide),
    sixteen_hex_digits_fill.2.2.2.1 1 _ (by decide) (by decide)⟩

/-! ## Bit construction -/

/-- Clearing bit 52 of a significand in `[2^52, 2^53)` with the complemented
mask subtracts `2^52`. -/
theorem and_not64_implicit (g : Nat) (h1 : 2 ^ 52 ≤ g) (h2 : g < 2 ^ 53) :
    g &&& not64 (2 ^ 52) = g - 2 ^ 52 := by
  have hm : not64 (2 ^ 52) = 2 ^ 64 - (2 ^ 52 + 1) := by
    unfold not64
    rw [Nat.mod_eq_of_lt (by norm_num)]
    omega
  have hg : g - 2 ^ 52 = g % 2 ^ 52 := by omega
  rw [hm, hg]
  apply Nat.eq_of_testBit_eq
  intro i
  rw [Nat.testBit_and, Nat.testBit_two_pow_sub_succ (by norm_num), Nat.testBit_mod_two_pow,
    Nat.testBit_two_pow]
  by_cases hi : i < 52
  · have hne : ¬ (52 = i) := by omega
    have h64 : i < 64 := by omega
    simp [hi, hne, h64]
  · by_cases hi2 : i = 52
    · subst hi2; simp
    · have hlt : g < 2 ^ i := lt_of_lt_of_le h2 (Nat.pow_le_pow_right (by norm_num) (by omega))
      simp [Nat.testBit_lt_two_pow hlt, hi]

/-- Three fields that do not overlap OR to their sum. -/
theorem or_fields_eq_sum (s b f : Nat) (hb : b < 2 ^ 11) (hf : f < 2 ^ 52) :
    ((s * 2 ^ 63) ||| (b <<< 52)) ||| f = s * 2 ^ 63 + b * 2 ^ 52 + f := by
  have hb2 : b * 2 ^ 52 < 2 ^ 63 := by omega
  have e1 : (s * 2 ^ 63) ||| (b <<< 52) = s * 2 ^ 63 + b * 2 ^ 52 := by
    rw [Nat.shiftLeft_eq, Nat.mul_comm s, ← Nat.mul_add_lt_is_or hb2]
  have e2 : s * 2 ^ 63 + b * 2 ^ 52 = 2 ^ 52 * (s * 2 ^ 11 + b) := by omega
  rw [e1, e2, ← Nat.mul_add_lt_is_or hf]

/-- The assembled pattern as a sum, for a biased exponent below 2^11 and a
normalized significand. -/
theorem floatBits_eq_sum (s b g : Nat) (hb : b < 2 ^ 11) (h1 : 2 ^ 52 ≤ g) (h2 : g < 2 ^ 53) :
    floatBits s b g = s * 2 ^ 63 + b * 2 ^ 52 + (g - 2 ^ 52) := by
  have hS : AMD64.SIGN_BIT = 2 ^ 63 := by decide
  have hI : AMD64.IMPLICIT_BIT = 2 ^ 52 := by decide
  have hM : AMD64.MANTISSA_BITS = 52 := rfl
  unfold floatBits
  rw [hS, hI, hM, and_not64_implicit g h1 h2]
  exact or_fields_eq_sum s b (g - 2 ^ 52) hb (by omega)

/-- C6: bit construction with the constants is lossless: for every sign s in
{0,1}, biased exponent b < 2^EXP_BITS and normalized significand g with
IMPLICIT_BIT <= g < 2 * IMPLICIT_BIT, the pattern p = (s * SIGN_BIT) |
(b << MANTISSA_BITS) | (g & ~IMPLICIT_BIT) is below 2^64, equals the sum of its
three terms, and gives back s = p >> 63, b = (p >> MANTISSA_BITS) &
(2^EXP_BITS - 1) and g = (p & (IMPLICIT_BIT - 1)) | IMPLICIT_BIT.  At s = 1,
b = 3 + EXP_BIAS, g = 0x18000000000000 the pattern is 0xC028000000000000, and
these fields denote -12. -/
theorem float_bits_lossless :
    (∀ s b g : Nat, (s = 0 ∨ s = 1) → b < 2 ^ AMD64.EXP_BITS → AMD64.IMPLICIT_BIT ≤ g →
      g < 2 * AMD64.IMPLICIT_BIT →
      floatBits s b g < 2 ^ 64 ∧
      floatBits s b g =
        s * AMD64.SIGN_BIT + (b <<< AMD64.MANTISSA_BITS) + (g &&& not64 AMD64.IMPLICIT_BIT) ∧
      floatBits s b g >>> 63 = s ∧
      (floatBits s b g >>> AMD64.MANTISSA_BITS) &&& (2 ^ AMD64.EXP_BITS - 1) = b ∧
      (floatBits s b g &&& (AMD64.IMPLICIT_BIT - 1)) ||| AMD64.IMPLICIT_BIT = g) ∧
    floatBits 1 (3 + AMD64.EXP_BIAS) 0x18000000000000 = 0xC028000000000000 ∧
    (-1 : ℚ) ^ 1 * (0x18000000000000 : ℚ) *
      (2 : ℚ) ^ ((3 + AMD64.EXP_BIAS : ℤ) - AMD64.EXP_BIAS - AMD64.MANTISSA_BITS) = -12 := by
  have hS : AMD64.SIGN_BIT = 2 ^ 63 := by decide
  have hI : AMD64.IMPLICIT_BIT = 2 ^ 52 := by decide
  have hM : AMD64.MANTISSA_BITS = 52 := rfl
  have hE : AMD64.EXP_BITS = 11 := rfl
  refine ⟨?_, by decide, ?_⟩
  · intro s b g hs hb h1 h2
    rw [hE] at hb
    rw [hI] at h1 h2
    have h2b : g < 2 ^ 53 := by omega
    have hp := floatBits_eq_sum s b g hb h1 h2b
    have hs1 : s ≤ 1 := by omega
    refine ⟨?_, ?_, ?_, ?_, ?_⟩
    · rw [hp]; omega
    · rw [hp, hS, hI, hM, and_not64_implicit g h1 h2b, Nat.shiftLeft_eq]
    · rw [hp, Nat.shiftRight_eq_div_pow]; omega
    · rw [hp, hM, hE, Nat.and_pow_two_sub_one_eq_mod, Nat.shiftRight_eq_div_pow]; omega
    · rw [hp, hI, Nat.and_pow_two_sub_one_eq_mod]
      have hf : (s * 2 ^ 63 + b * 2 ^ 52 + (g - 2 ^ 52)) % 2 ^ 52 = g - 2 ^ 52 := by omega
      have hlt : g - 2 ^ 52 < 2 ^ 52 := by omega
      have hor : 2 ^ 52 * 1 + (g - 2 ^ 52) = 2 ^ 52 * 1 ||| (g - 2 ^ 52) :=
        Nat.mul_add_lt_is_or hlt 1
      rw [Nat.mul_one] at hor
      rw [hf, Nat.lor_comm, ← hor]
      omega
  · rw [show ((3 + AMD64.EXP_BIAS : ℤ) - AMD64.EXP_BIAS - AMD64.MANTISSA_BITS) = -49 by
      simp [AMD64.EXP_BIAS, AMD64.MANTISSA_BITS]]
    rw [zpow_neg, zpow_ofNat]
    norm_num

/-- Witness of C6 at -12.0: sign 1, biased exponent 1026, significand
0x18000000000000 are recovered from the assembled pattern. -/
theorem float_bits_lossless_witness :
    floatBits 1 1026 0x18000000000000 < 2 ^ 64 ∧
      floatBits 1 1026 0x18000000000000 =
        1 * AMD64.SIGN_BIT + (1026 <<< AMD64.MANTISSA_BITS) +
          (0x18000000000000 &&& not64 AMD64.IMPLICIT_BIT) ∧
      floatBits 1 1026 0x18000000000000 >>> 63 = 1 ∧
      (floatBits 1 1026 0x18000000000000 >>> AMD64.MANTISSA_BITS) &&&
        (2 ^ AMD64.EXP_BITS - 1) = 1026 ∧
      (floatBits 1 1026 0x18000000000000 &&& (AMD64.IMPLICIT_BIT - 1)) ||| AMD64.IMPLICIT_BIT =
        0x18000000000000 :=
  float_bits_lossless.1 1 1026 0x18000000000000 (Or.inr rfl) (by decide) (by decide) (by decide)

/-! ## Exponent ceiling -/

/-- A non-zero significand scaled by a power of ten above 10^10000 is at least
2^1024. -/
theorem scaled_ge_two_pow_1024 (m : ℕ) (e : ℤ) (hm : 1 ≤ m) (he : (10000 : ℤ) < e) :
    (2 : ℚ) ^ 1024 ≤ (m : ℚ) * (10 : ℚ) ^ e := by
  obtain ⟨n, rfl⟩ : ∃ n : ℕ, e = n := Int.eq_ofNat_of_zero_le (by omega)
  rw [zpow_natCast]
  have hn : 1024 ≤ n := by omega
  have h1 : (2 : ℚ) ^ 1024 ≤ (2 : ℚ) ^ n := pow_le_pow_right₀ (by norm_num) hn
  have h2 : (2 : ℚ) ^ n ≤ (10 : ℚ) ^ n := pow_le_pow_left₀ (by norm_num) (by norm_num) n
  have h3 : (1 : ℚ) ≤ (m : ℚ) := by exact_mod_cast hm
  have h4 : (0 : ℚ) ≤ (10 : ℚ) ^ n := by positivity
  nlinarith

/-- A 64-bit significand scaled by a power of ten below 10^-10000 is below
2^-1075. -/
theorem scaled_lt_two_pow_neg_1075 (m : ℕ) (e : ℤ) (hm : m < 2 ^ 64) (he : e < -(10000 : ℤ)) :
    (m : ℚ) * (10 : ℚ) ^ e < (2 : ℚ) ^ (-1075 : ℤ) := by
  obtain ⟨n, hn⟩ : ∃ n : ℕ, -e = n := Int.eq_ofNat_of_zero_le (by omega)
  have he2 : e = -(n : ℤ) := by omega
  subst he2
  have hn2 : 1139 ≤ n := by omega
  rw [zpow_neg, zpow_natCast, zpow_neg, zpow_ofNat]
  have h1 : (2 : ℚ) ^ 1139 ≤ (2 : ℚ) ^ n := pow_le_pow_right₀ (by norm_num) hn2
  have h2 : (2 : ℚ) ^ n ≤ (10 : ℚ) ^ n := pow_le_pow_left₀ (by norm_num) (by norm_num) n
  have h3 : (m : ℚ) < 2 ^ 64 := by exact_mod_cast hm
  have h10 : (0 : ℚ) < (10 : ℚ) ^ n := by positivity
  have h5 : (m : ℚ) * 2 ^ 1075 < (10 : ℚ) ^ n := by
    have hlt : (m : ℚ) * 2 ^ 1075 < 2 ^ 64 * 2 ^ 1075 :=
      mul_lt_mul_of_pos_right h3 (by positivity)
    have e2 : (2 : ℚ) ^ 64 * 2 ^ 1075 = 2 ^ 1139 := by rw [← pow_add]
    linarith
  rw [← div_eq_mul_inv, div_lt_iff₀ h10, inv_mul_eq_div, lt_div_iff₀ (by positivity)]
  exact h5

/-- A positive value below 2^-1075 is strictly nearer to zero than to any value
of magnitude at least 2^-1074. -/
theorem nearer_zero_of_lt_half_subnormal (x v : ℚ) (hx0 : 0 < x)
    (hx : x < (2 : ℚ) ^ (-1075 : ℤ)) (hv : (2 : ℚ) ^ (-1074 : ℤ) ≤ |v|) :
    |x - 0| < |x - v| := by
  have h2 : (2 : ℚ) ^ (-1074 : ℤ) = 2 * (2 : ℚ) ^ (-1075 : ℤ) := by
    rw [show (-1074 : ℤ) = 1 + (-1075) from rfl, zpow_add₀ (by norm_num), zpow_one]
  rw [sub_zero, abs_of_pos hx0]
  rcases abs_cases v with ⟨h, _⟩ | ⟨h, _⟩
  · rw [h] at hv
    rw [abs_sub_comm, abs_of_pos (by linarith)]
    linarith
  · rw [h] at hv
    rw [abs_of_pos (by linarith)]
    linarith

/-- The two saturation bounds for an exponent ceiling of 10000. -/
theorem saturation_bounds (m : ℕ) (e : ℤ) (h1 : 1 ≤ m) (h2 : m < 2 ^ 64) :
    ((10000 : ℤ) < e →
      (2 : ℚ) ^ 1024 - 2 ^ 971 < (m : ℚ) * (10 : ℚ) ^ e ∧
      (2 : ℚ) ^ 1024 ≤ (m : ℚ) * (10 : ℚ) ^ e) ∧
    (e < -(10000 : ℤ) →
      0 < (m : ℚ) * (10 : ℚ) ^ e ∧
      (m : ℚ) * (10 : ℚ) ^ e < (2 : ℚ) ^ (-1075 : ℤ) ∧
      ∀ v : ℚ, (2 : ℚ) ^ (-1074 : ℤ) ≤ |v| →
        |(m : ℚ) * (10 : ℚ) ^ e - 0| < |(m : ℚ) * (10 : ℚ) ^ e - v|) := by
  constructor
  · intro he
    have h := scaled_ge_two_pow_1024 m e h1 he
    have hpos : (0 : ℚ) < 2 ^ 971 := by positivity
    exact ⟨by linarith, h⟩
  · intro he
    have hm : (0 : ℚ) < (m : ℚ) := by exact_mod_cast h1
    have hpos : 0 < (m : ℚ) * (10 : ℚ) ^ e := mul_pos hm (zpow_pos (by norm_num) e)
    have h := scaled_lt_two_pow_neg_1075 m e h2 he
    exact ⟨hpos, h, fun v hv => nearer_zero_of_lt_half_subnormal _ v hpos h hv⟩

/-- C5: the exponent ceiling MAX_EXP is 10000 in both headers, and saturating
beyond it is sound.  The largest finite double is 2^1024 - 2^971 and half the
smallest subnormal is 2^(1 - EXP_BIAS - MANTISSA_BITS - 1) = 2^-1075.  For every
significand m with 1 <= m < 2^64: if e > MAX_EXP then m * 10^e exceeds
2^1024 - 2^971 (it is at least 2^1024); if e < -MAX_EXP then m * 10^e is
positive and below 2^-1075, hence strictly nearer to zero than to any value of
magnitude at least the smallest subnormal 2^-1074.  So no finite non-zero
double is the correctly rounded result. -/
theorem max_exp_saturation_sound :
    (AMD64.MAX_EXP = 10000 ∧ ARM64.MAX_EXP = 10000) ∧
    ((2 : ℚ) ^ (AMD64.MANTISSA_BITS + 1) - 1) *
        (2 : ℚ) ^ (2 ^ AMD64.EXP_BITS - 2 - AMD64.EXP_BIAS - AMD64.MANTISSA_BITS) =
      (2 : ℚ) ^ 1024 - 2 ^ 971 ∧
    ((1 : ℤ) - AMD64.EXP_BIAS - AMD64.MANTISSA_BITS - 1 = -1075) ∧
    (∀ (m : ℕ) (e : ℤ), 1 ≤ m → m < 2 ^ 64 → (AMD64.MAX_EXP : ℤ) < e →
      (2 : ℚ) ^ 1024 - 2 ^ 971 < (m : ℚ) * (10 : ℚ) ^ e ∧
      (2 : ℚ) ^ 1024 ≤ (m : ℚ) * (10 : ℚ) ^ e) ∧
    (∀ (m : ℕ) (e : ℤ), 1 ≤ m → m < 2 ^ 64 → e < -(AMD64.MAX_EXP : ℤ) →
      0 < (m : ℚ) * (10 : ℚ) ^ e ∧
      (m : ℚ) * (10 : ℚ) ^ e <
        (2 : ℚ) ^ ((1 : ℤ) - AMD64.EXP_BIAS - AMD64.MANTISSA_BITS - 1) ∧
      ∀ v : ℚ, (2 : ℚ) ^ ((1 : ℤ) - AMD64.EXP_BIAS - AMD64.MANTISSA_BITS) ≤ |v| →
        |(m : ℚ) * (10 : ℚ) ^ e - 0| < |(m : ℚ) * (10 : ℚ) ^ e - v|) ∧
    (∀ (m : ℕ) (e : ℤ), 1 ≤ m → m < 2 ^ 64 → (ARM64.MAX_EXP : ℤ) < e →
      (2 : ℚ) ^ 1024 - 2 ^ 971 < (m : ℚ) * (10 : ℚ) ^ e ∧
      (2 : ℚ) ^ 1024 ≤ (m : ℚ) * (10 : ℚ) ^ e) ∧
    (∀ (m : ℕ) (e : ℤ), 1 ≤ m → m < 2 ^ 64 → e < -(ARM64.MAX_EXP : ℤ) →
      0 < (m : ℚ) * (10 : ℚ) ^ e ∧
      (m : ℚ) * (10 : ℚ) ^ e <
        (2 : ℚ) ^ ((1 : ℤ) - ARM64.EXP_BIAS - ARM64.MANTISSA_BITS - 1) ∧
      ∀ v : ℚ, (2 : ℚ) ^ ((1 : ℤ) - ARM64.EXP_BIAS - ARM64.MANTISSA_BITS) ≤ |v| →
        |(m : ℚ) * (10 : ℚ) ^ e - 0| < |(m : ℚ) * (10 : ℚ) ^ e - v|) := by
  have hA : (AMD64.MAX_EXP : ℤ) = 10000 := rfl
  have hB : (ARM64.MAX_EXP : ℤ) = 10000 := rfl
  have e1 : (1 : ℤ) - AMD64.EXP_BIAS - AMD64.MANTISSA_BITS - 1 = -1075 := by
    simp [AMD64.EXP_BIAS, AMD64.MANTISSA_BITS]
  have e2 : (1 : ℤ) - AMD64.EXP_BIAS - AMD64.MANTISSA_BITS = -1074 := by
    simp [AMD64.EXP_BIAS, AMD64.MANTISSA_BITS]
  have e3 : (1 : ℤ) - ARM64.EXP_BIAS - ARM64.MANTISSA_BITS - 1 = -1075 := by
    simp [ARM64.EXP_BIAS, ARM64.MANTISSA_BITS]
  have e4 : (1 : ℤ) - ARM64.EXP_BIAS - ARM64.MANTISSA_BITS = -1074 := by
    simp [ARM64.EXP_BIAS, ARM64.MANTISSA_BITS]
  refine ⟨⟨rfl, rfl⟩, ?_, e1, ?_, ?_, ?_, ?_⟩
  · rw [show AMD64.MANTISSA_BITS + 1 = 53 from rfl,
      show 2 ^ AMD64.EXP_BITS - 2 - AMD64.EXP_BIAS - AMD64.MANTISSA_BITS = 971 from rfl,
      sub_mul, ← pow_add, one_mul]
  · intro m e h1 h2 he
    rw [hA] at he
    exact (saturation_bounds m e h1 h2).1 he
  · intro m e h1 h2 he
    rw [hA] at he
    rw [e1, e2]
    exact (saturation_bounds m e h1 h2).2 he
  · intro m e h1 h2 he
    rw [hB] at he
    exact (saturation_bounds m e h1 h2).1 he
  · intro m e h1 h2 he
    rw [hB] at he
    rw [e3, e4]
    exact (saturation_bounds m e h1 h2).2 he

/-- Witness of C5 at the significand 1 and the exponents 10001 and -10001. -/
theorem max_exp_saturation_sound_witness :
    (2 : ℚ) ^ 1024 - 2 ^ 971 < ((1 : ℕ) : ℚ) * (10 : ℚ) ^ (10001 : ℤ) ∧
    ((1 : ℕ) : ℚ) * (10 : ℚ) ^ (-10001 : ℤ) <
      (2 : ℚ) ^ ((1 : ℤ) - AMD64.EXP_BIAS - AMD64.MANTISSA_BITS - 1) :=
  ⟨(max_exp_saturation_sound.2.2.2.1 1 10001 (by decide) (by decide) (by decide)).1,
    (max_exp_saturation_sound.2.2.2.2.1 1 (-10001) (by decide) (by decide) (by decide)).2.1⟩

end Fastparse
